import Mathlib

/-!
# asan.c : the fault-injection entry point `asan_test`

A shallow embedding of `src/asan.c`.  The C function `asan_test` parses its
Python arguments with the format `"i|p"`, then either

* (leak mode) obtains 100 ints from `malloc`, stores `1` at offset 1, loads the
  cell at `index`, and overwrites its only pointer with `NULL`, or
* (default) stores `1` at offset 1 of the automatic array `stack_array[100]`
  and loads the cell at `index`.

Memory is explicit: arrays are lists of integers, loads and stores return an
`Option` (`none` = the access is outside the object, which in C is undefined
behaviour), the heap is the list of all blocks handed out by `malloc`, and each
run records the sequence of memory events it performed.  The indeterminate
initial contents of the automatic array and of freshly allocated memory are
inputs supplied by the environment.

`PyArg_ParseTupleAndKeywords`, `PyLong_AsLong`, `PyObject_IsTrue` (CPython C API)
and `malloc`, `free` (C library) are called by `asan.c` but are not part of it.
They are modelled here by their documented behaviour, the parser only for the
format string `"i|p"` and the keyword list that `asan_test` passes to it.
-/

namespace Asan

/-! ## Python objects and the argument parser of the host runtime -/

/-- Python values that can be passed to the function.  `other index truth`
stands for an object of any other type (a float, a list, an instance of a user
class, ...): `index` is the integer its `__index__` method returns (`none` when
the type has no `__index__` or the method raises), and `truth` is the outcome of
its truth test (`none` when the test raises). -/
inductive PyObj where
  | int (v : Int)
  | bool (b : Bool)
  | none
  | str (s : String)
  | other (index : Option Int) (truth : Option Bool)
  deriving DecidableEq, Repr

/-- Largest value of a C `int`. -/
def INT_MAX : Int := 2147483647

/-- Smallest value of a C `int`. -/
def INT_MIN : Int := -2147483648

/-- Largest value of a C `long` (LP64). -/
def LONG_MAX : Int := 9223372036854775807

/-- Smallest value of a C `long` (LP64). -/
def LONG_MIN : Int := -9223372036854775808

/-- Size of a C `int` in bytes. -/
def sizeof_int : Nat := 4

/-- CPython C API, `PyLong_AsLong`: an integer (or a boolean, a subtype of
integers) is converted when it fits a C `long`; an object of another type is
first converted with its `__index__` method when it has one.  A value that does
not fit raises `OverflowError`, an object without `__index__` raises `TypeError`
(both `none` here). -/
def PyLong_AsLong : PyObj → Option Int
  | .int v => if LONG_MIN ≤ v ∧ v ≤ LONG_MAX then some v else Option.none
  | .bool b => some (if b then 1 else 0)
  | .other (some v) _ => if LONG_MIN ≤ v ∧ v ≤ LONG_MAX then some v else Option.none
  | _ => Option.none

/-- CPython C API, `PyObject_IsTrue`: 1 for a true object, 0 for a false one,
-1 when the truth test raises. -/
def PyObject_IsTrue : PyObj → Int
  | .int v => if v = 0 then 0 else 1
  | .bool b => if b then 1 else 0
  | .none => 0
  | .str s => if s.length = 0 then 0 else 1
  | .other _ (some true) => 1
  | .other _ (some false) => 0
  | .other _ Option.none => -1

/-- CPython argument parser, format unit `i`: the argument is converted with
`PyLong_AsLong` and stored as a C `int`; a value above `INT_MAX` or below
`INT_MIN` raises `OverflowError`. -/
def convert_i (arg : PyObj) : Option Int :=
  match PyLong_AsLong arg with
  | Option.none => Option.none
  | some ival =>
    if ival > INT_MAX then Option.none
    else if ival < INT_MIN then Option.none
    else some ival

/-- CPython argument parser, format unit `p`: the truth value of any object,
stored as the C `int` 1 or 0; fails only when the truth test raises. -/
def convert_p (arg : PyObj) : Option Int :=
  let val := PyObject_IsTrue arg
  if val > 0 then some 1
  else if val = 0 then some 0
  else Option.none

/-- The keyword list of `asan_test`: `static char *kwlist[] = {"index", "leak", NULL}`. -/
def kwlist : List String := ["index", "leak"]

/-- The argument for parameter number `i`: the positional argument when there is
one, otherwise the keyword argument named `kwlist[i]`. -/
def current_arg (args : List PyObj) (kwargs : List (String × PyObj)) (i : Nat) : Option PyObj :=
  if i < args.length then args[i]? else kwargs.lookup (kwlist.getD i "")

/-- The closing checks of the keyword parser: no parameter is given both by
position and by name, and every keyword is one of `kwlist`. -/
def keywords_ok (args : List PyObj) (kwargs : List (String × PyObj)) : Bool :=
  (List.range args.length).all (fun i => (kwargs.lookup (kwlist.getD i "")).isNone)
    && kwargs.all (fun kv => kwlist.contains kv.1)

/-- CPython C API, the call
`PyArg_ParseTupleAndKeywords(args, kwargs, "i|p", kwlist, &index, &leak)`:
at most two arguments in all; parameter 0 (`index`, unit `i`) is required,
parameter 1 (`leak`, unit `p`) follows the `|` and is optional; each is taken
from the tuple when present there and otherwise looked up by name.
`args` is the positional tuple, `kwargs` the keyword dictionary (string keys),
`_index` and `leak` the values the two C variables hold before the call.  The
result is `none` when the call fails (an exception is set and 0 is returned) and
otherwise the values of the two variables after the call: a parameter that was
not supplied keeps its previous value. -/
def PyArg_ParseTupleAndKeywords (args : List PyObj) (kwargs : List (String × PyObj))
    (_index leak : Int) : Option (Int × Int) :=
  if args.length + kwargs.length > kwlist.length then Option.none
  else
    match current_arg args kwargs 0 with
    | Option.none => Option.none        -- required parameter `index` is missing
    | some a0 =>
      match convert_i a0 with
      | Option.none => Option.none
      | some index1 =>
        match current_arg args kwargs 1 with
        | Option.none =>
          if keywords_ok args kwargs then some (index1, leak) else Option.none
        | some a1 =>
          match convert_p a1 with
          | Option.none => Option.none
          | some leak1 =>
            if keywords_ok args kwargs then some (index1, leak1) else Option.none

/-! ## Memory -/

/-- The first `n` ints of a piece of raw memory whose contents are `raw`. -/
def rawInts (n : Nat) (raw : Nat → Int) : List Int := (List.range n).map raw

/-- The value of `a[i]` for an array with contents `a`; `none` when `i` is
outside the array. -/
def loadInt (a : List Int) (i : Int) : Option Int :=
  if 0 ≤ i then a[i.toNat]? else Option.none

/-- The array after `a[i] = v`; `none` when `i` is outside the array. -/
def storeInt (a : List Int) (i : Int) (v : Int) : Option (List Int) :=
  if 0 ≤ i ∧ i.toNat < a.length then some (a.set i.toNat v) else Option.none

/-- One block handed out by `malloc`. -/
structure Block where
  cells : List Int
  released : Bool
  deriving DecidableEq, Repr

/-- The heap: every block `malloc` has handed out, in order.  The address of a
block is its position in this list, so addresses are never reused. -/
abbrev Heap := List Block

/-- The blocks that were allocated and not released, with their addresses. -/
def Heap.unreclaimed (h : Heap) : List (Nat × Block) :=
  (h.enum).filter (fun pb => !pb.2.released)

/-- C library: `malloc(bytes)` on a heap `h`.  `raw = none` means the allocation
fails and `NULL` is returned; `raw = some g` means it succeeds and the fresh
memory has the indeterminate contents `g`. -/
def malloc (h : Heap) (bytes : Nat) (raw : Option (Nat → Int)) : Heap × Option Nat :=
  match raw with
  | Option.none => (h, Option.none)
  | some g => (h ++ [{ cells := rawInts (bytes / sizeof_int) g, released := false }], some h.length)

/-- C library: `free(p)` on a heap `h` (never called by `asan_test`). -/
def free (h : Heap) (p : Nat) : Option Heap :=
  match h[p]? with
  | some b => if b.released then Option.none else some (h.set p { b with released := true })
  | Option.none => Option.none

/-- The value of `p[i]` for a pointer `p` to the start of a heap block. -/
def Heap.load (h : Heap) (p : Nat) (i : Int) : Option Int :=
  match h[p]? with
  | some b => if b.released then Option.none else loadInt b.cells i
  | Option.none => Option.none

/-- The heap after `p[i] = v` for a pointer `p` to the start of a heap block. -/
def Heap.store (h : Heap) (p : Nat) (i : Int) (v : Int) : Option Heap :=
  match h[p]? with
  | some b =>
    if b.released then Option.none
    else
      match storeInt b.cells i v with
      | some c => some (h.set p { b with cells := c })
      | Option.none => Option.none
  | Option.none => Option.none

/-- The object a memory access refers to. -/
inductive Region where
  | stack_array
  | heap (addr : Nat)
  | null
  deriving DecidableEq, Repr

/-- The memory events a run can perform. -/
inductive Event where
  | malloc (bytes : Nat) (ret : Option Nat)
  | free (addr : Nat)
  | store (r : Region) (off : Int) (v : Int)
  | load (r : Region) (off : Int)
  deriving DecidableEq, Repr

/-- True for the events that access the automatic array. -/
def Event.touchesStack : Event → Bool
  | .store .stack_array _ _ => true
  | .load .stack_array _ => true
  | _ => false

/-- True for the events that call the allocator. -/
def Event.isMalloc : Event → Bool
  | .malloc _ _ => true
  | _ => false

/-- True for the events that release a block. -/
def Event.isFree : Event → Bool
  | .free _ => true
  | _ => false

/-- The addresses returned by the successful allocations of a trace. -/
def allocated : List Event → List Nat
  | [] => []
  | .malloc _ (some p) :: t => p :: allocated t
  | _ :: t => allocated t

/-! ## The function -/

/-- What the caller observes. -/
inductive PyResult where
  | NULL        -- `return NULL`: an exception is set
  | Py_True     -- `Py_RETURN_TRUE`
  | Py_False    -- `Py_RETURN_FALSE`
  | fault       -- an access outside an object: undefined behaviour
  deriving DecidableEq, Repr

/-- What the environment supplies to one call: the indeterminate contents of
the automatic array, and the behaviour of `malloc` should it be called. -/
structure Env where
  stack_raw : Nat → Int
  malloc_raw : Option (Nat → Int)

/-- The outcome of one call: the result, the heap afterwards, the memory events
in order, and the value held by the local pointer `heap_array` when the run
ends (`none` = `NULL`, or the variable was never created). -/
structure Run where
  result : PyResult
  heap : Heap
  trace : List Event
  heap_array : Option Nat
  deriving DecidableEq, Repr

/-- The C function `asan_test(self, args, kwargs)` run on the heap `h`. -/
def asan_test (args : List PyObj) (kwargs : List (String × PyObj)) (env : Env) (h : Heap) : Run :=
  let stack_array : List Int := rawInts 100 env.stack_raw
  match PyArg_ParseTupleAndKeywords args kwargs 0 0 with
  | Option.none => { result := .NULL, heap := h, trace := [], heap_array := Option.none }
  | some (index, leak) =>
    if leak ≠ 0 then
      match malloc h (100 * sizeof_int) env.malloc_raw with
      | (h1, Option.none) =>
        -- `heap_array[1] = 1` through a null pointer
        { result := .fault, heap := h1,
          trace := [.malloc (100 * sizeof_int) Option.none, .store .null 1 1],
          heap_array := Option.none }
      | (h1, some p) =>
        match h1.store p 1 1 with
        | Option.none =>
          { result := .fault, heap := h1,
            trace := [.malloc (100 * sizeof_int) (some p), .store (.heap p) 1 1],
            heap_array := some p }
        | some h2 =>
          match h2.load p index with
          | Option.none =>
            { result := .fault, heap := h2,
              trace := [.malloc (100 * sizeof_int) (some p), .store (.heap p) 1 1,
                        .load (.heap p) index],
              heap_array := some p }
          | some v =>
            let result : Int := if v = 1 then 1 else 0
            { result := if result ≠ 0 then .Py_True else .Py_False, heap := h2,
              trace := [.malloc (100 * sizeof_int) (some p), .store (.heap p) 1 1,
                        .load (.heap p) index],
              heap_array := Option.none }
    else
      match storeInt stack_array 1 1 with
      | Option.none =>
        { result := .fault, heap := h, trace := [.store .stack_array 1 1],
          heap_array := Option.none }
      | some s1 =>
        match loadInt s1 index with
        | Option.none =>
          { result := .fault, heap := h,
            trace := [.store .stack_array 1 1, .load .stack_array index],
            heap_array := Option.none }
        | some v =>
          let result : Int := if v = 1 then 1 else 0
          { result := if result ≠ 0 then .Py_True else .Py_False, heap := h,
            trace := [.store .stack_array 1 1, .load .stack_array index],
            heap_array := Option.none }

/-- One call as the interpreter issues it: the arguments and what the
environment supplies to that call. -/
structure Call where
  args : List PyObj
  kwargs : List (String × PyObj)
  env : Env

/-- A sequence of calls, each starting on the heap the previous one left.  A
run that faults ends the sequence. -/
def runCalls : List Call → Heap → List Run
  | [], _ => []
  | c :: cs, h =>
    let r := asan_test c.args c.kwargs c.env h
    if r.result = .fault then [r] else r :: runCalls cs r.heap

/-- The heap after a sequence of runs that started on `h`. -/
def finalHeap (h : Heap) (rs : List Run) : Heap :=
  match rs.getLast? with
  | some r => r.heap
  | Option.none => h

/-! ## Auxiliary definitions used to state the properties -/

/-- True for the Python objects the runtime accepts where an integer is
expected: an `int`, a `bool` (a subtype of `int`), and an object of another type
whose `__index__` method returns an integer. -/
def PyObj.isInteger : PyObj → Bool
  | .int _ => true
  | .bool _ => true
  | .other (some _) _ => true
  | _ => false

/-- The block a leak-mode run leaves on the heap: 100 ints with the contents
`g` that `malloc` returned, and `1` stored at offset 1. -/
def leakedBlock (g : Nat → Int) : Block :=
  { cells := (rawInts 100 g).set 1 1, released := false }

/-- The contents, before the call, of the buffer a call with the flag `leak`
uses: the automatic array, or the memory `malloc` returns (empty when the
allocation fails and there is no buffer). -/
def Env.selected (env : Env) (leak : Int) : List Int :=
  if leak ≠ 0 then
    match env.malloc_raw with
    | some g => rawInts 100 g
    | Option.none => []
  else rawInts 100 env.stack_raw

/-- An environment in which all fresh memory holds zeros. -/
def zeroEnv : Env := { stack_raw := fun _ => 0, malloc_raw := some (fun _ => 0) }

/-- An environment in which `malloc` fails (returns `NULL`). -/
def noMemEnv : Env := { stack_raw := fun _ => 0, malloc_raw := Option.none }

/-- An environment in which all fresh memory holds ones. -/
def onesEnv : Env := { stack_raw := fun _ => 1, malloc_raw := some (fun _ => 1) }

/-- True for a call that asks for leak mode with an index in `[0, 99]` and whose
allocation succeeds. -/
def Call.leaks (c : Call) : Bool :=
  match PyArg_ParseTupleAndKeywords c.args c.kwargs 0 0 with
  | some (index, leak) =>
    decide (leak ≠ 0) && decide (0 ≤ index) && decide (index ≤ 99) && c.env.malloc_raw.isSome
  | Option.none => false

/-- All memory events of a sequence of runs, in order. -/
def allEvents (rs : List Run) : List Event := (rs.map Run.trace).flatten

/-- Two calls `test(1, leak=True)` in an environment whose fresh memory is zero. -/
def twoLeakCalls : List Call :=
  [{ args := [PyObj.int 1], kwargs := [("leak", PyObj.bool true)], env := zeroEnv },
   { args := [PyObj.int 1], kwargs := [("leak", PyObj.bool true)], env := zeroEnv }]

/-! ## Lemmas about memory -/

theorem rawInts_length (n : Nat) (g : Nat → Int) : (rawInts n g).length = n := by
  simp [rawInts]

/-- Every list of ints is the content of some raw memory, so quantifying over
the environment covers every initial content of a buffer. -/
theorem rawInts_of_list (b : List Int) : rawInts b.length (fun i => b.getD i 0) = b := by
  apply List.ext_getElem?
  intro i
  by_cases hi : i < b.length
  · simp [rawInts, hi, List.getD_eq_getElem?_getD, List.getElem?_eq_getElem hi]
  · have hge : b.length ≤ i := by omega
    simp [rawInts, List.getElem?_eq_none hge, hi]
    exact hge

theorem rawInts_getElem? (g : Nat → Int) (index : Int) (h0 : 0 ≤ index) (h99 : index ≤ 99) :
    (rawInts 100 g)[index.toNat]? = some (g index.toNat) := by
  have hlt : index.toNat < 100 := by omega
  simp [rawInts, hlt]

theorem loadInt_isSome_iff (b : List Int) (hb : b.length = 100) (index : Int) :
    (loadInt b index).isSome = true ↔ 0 ≤ index ∧ index ≤ 99 := by
  unfold loadInt
  by_cases h0 : 0 ≤ index
  · by_cases h1 : index ≤ 99
    · have hlt : index.toNat < b.length := by omega
      simp [h0, h1, hlt]
    · have hge : b.length ≤ index.toNat := by omega
      simp [h0, h1, List.getElem?_eq_none hge]
  · simp [h0]

theorem storeInt_one (g : Nat → Int) :
    storeInt (rawInts 100 g) 1 1 = some ((rawInts 100 g).set 1 1) := by
  simp [storeInt, rawInts_length]

theorem loadInt_written (g : Nat → Int) (index : Int) :
    loadInt ((rawInts 100 g).set 1 1) index =
      if 0 ≤ index ∧ index ≤ 99 then some (if index = 1 then 1 else g index.toNat)
      else Option.none := by
  unfold loadInt
  by_cases h0 : 0 ≤ index
  · by_cases h1 : index ≤ 99
    · have hlt : index.toNat < 100 := by omega
      by_cases h2 : index = 1
      · subst h2
        simp [rawInts]
      · have hne : ¬ (1 = index.toNat) := by omega
        simp [h0, h1, h2, rawInts, List.getElem?_set, hne, hlt]
    · have hge : 100 ≤ index.toNat := by omega
      have hne : ¬ (1 = index.toNat) := by omega
      have hnone : (List.range 100)[index.toNat]? = Option.none := by
        apply List.getElem?_eq_none
        simpa using hge
      simp [h0, h1, rawInts, List.getElem?_set, hne, hnone]
  · simp [h0]

theorem heap_store_fresh (h : Heap) (b : Block) (hb : b.released = false) (c : List Int)
    (i v : Int) (hc : storeInt b.cells i v = some c) :
    Heap.store (h ++ [b]) h.length i v = some (h ++ [{ b with cells := c }]) := by
  simp [Heap.store, hb, hc]

theorem heap_load_fresh (h : Heap) (b : Block) (hb : b.released = false) (i : Int) :
    Heap.load (h ++ [b]) h.length i = loadInt b.cells i := by
  simp [Heap.load, hb]

/-! ## Lemmas about the argument parser -/

theorem convert_i_int (v : Int) :
    convert_i (.int v) = if INT_MIN ≤ v ∧ v ≤ INT_MAX then some v else Option.none := by
  unfold convert_i PyLong_AsLong INT_MIN INT_MAX LONG_MIN LONG_MAX
  by_cases h1 : (-2147483648 : Int) ≤ v
  · by_cases h2 : v ≤ 2147483647
    · have h3 : (-9223372036854775808 : Int) ≤ v := by omega
      have h4 : v ≤ 9223372036854775807 := by omega
      have h5 : ¬ v > 2147483647 := by omega
      have h6 : ¬ v < -2147483648 := by omega
      simp [h1, h2, h3, h4, h5, h6]
    · by_cases h3 : v ≤ 9223372036854775807
      · have h4 : (-9223372036854775808 : Int) ≤ v := by omega
        have h5 : v > 2147483647 := by omega
        simp [h1, h2, h3, h4, h5]
      · simp [h1, h2, h3]
  · by_cases h3 : (-9223372036854775808 : Int) ≤ v
    · have h4 : v ≤ 9223372036854775807 := by omega
      have h5 : ¬ v > 2147483647 := by omega
      have h6 : v < -2147483648 := by omega
      simp [h1, h3, h4, h5, h6]
    · simp [h1, h3]

theorem convert_p_bool (b : Bool) : convert_p (.bool b) = some (if b then 1 else 0) := by
  cases b <;> simp [convert_p, PyObject_IsTrue]

theorem convert_i_other (v : Int) (t : Option Bool) :
    convert_i (.other (some v) t)
      = if INT_MIN ≤ v ∧ v ≤ INT_MAX then some v else Option.none := by
  have hint : convert_i (.other (some v) t) = convert_i (.int v) := by
    simp [convert_i, PyLong_AsLong]
  rw [hint, convert_i_int]

theorem convert_i_not_integer (a : PyObj) (ha : a.isInteger = false) :
    convert_i a = Option.none := by
  cases a with
  | int v => simp [PyObj.isInteger] at ha
  | bool b => simp [PyObj.isInteger] at ha
  | none => simp [convert_i, PyLong_AsLong]
  | str s => simp [convert_i, PyLong_AsLong]
  | other idx t =>
    cases idx with
    | none => simp [convert_i, PyLong_AsLong]
    | some v => simp [PyObj.isInteger] at ha

theorem parse_pos (x : PyObj) (lk : Int) :
    PyArg_ParseTupleAndKeywords [x] [] 0 lk = (convert_i x).map (fun i => (i, lk)) := by
  cases hc : convert_i x <;>
    simp [PyArg_ParseTupleAndKeywords, current_arg, kwlist, keywords_ok, List.lookup, hc]

theorem parse_pos_kwleak (x y : PyObj) :
    PyArg_ParseTupleAndKeywords [x] [("leak", y)] 0 0
      = (convert_i x).bind (fun i => (convert_p y).map (fun l => (i, l))) := by
  cases hc : convert_i x <;> cases hp : convert_p y <;>
    simp [PyArg_ParseTupleAndKeywords, current_arg, kwlist, keywords_ok, List.lookup, hc, hp]

theorem parse_kw (x : PyObj) (lk : Int) :
    PyArg_ParseTupleAndKeywords [] [("index", x)] 0 lk = (convert_i x).map (fun i => (i, lk)) := by
  cases hc : convert_i x <;>
    simp [PyArg_ParseTupleAndKeywords, current_arg, kwlist, keywords_ok, List.lookup, hc]

theorem parse_kw_kwleak (x y : PyObj) :
    PyArg_ParseTupleAndKeywords [] [("index", x), ("leak", y)] 0 0
      = (convert_i x).bind (fun i => (convert_p y).map (fun l => (i, l))) := by
  cases hc : convert_i x <;> cases hp : convert_p y <;>
    simp [PyArg_ParseTupleAndKeywords, current_arg, kwlist, keywords_ok, List.lookup, hc, hp]

theorem parse_pos_pos (x y : PyObj) :
    PyArg_ParseTupleAndKeywords [x, y] [] 0 0
      = (convert_i x).bind (fun i => (convert_p y).map (fun l => (i, l))) := by
  cases hc : convert_i x <;> cases hp : convert_p y <;>
    simp [PyArg_ParseTupleAndKeywords, current_arg, kwlist, keywords_ok, List.lookup, hc, hp]

theorem parse_index_missing (args : List PyObj) (kwargs : List (String × PyObj)) (i l : Int)
    (h : current_arg args kwargs 0 = Option.none) :
    PyArg_ParseTupleAndKeywords args kwargs i l = Option.none := by
  unfold PyArg_ParseTupleAndKeywords
  simp [h]

theorem parse_index_not_integer (args : List PyObj) (kwargs : List (String × PyObj)) (i l : Int)
    (a : PyObj) (h : current_arg args kwargs 0 = some a) (ha : a.isInteger = false) :
    PyArg_ParseTupleAndKeywords args kwargs i l = Option.none := by
  unfold PyArg_ParseTupleAndKeywords
  simp [h, convert_i_not_integer a ha]

/-! ## The three ways a call can go -/

theorem asan_test_null (args : List PyObj) (kwargs : List (String × PyObj)) (env : Env)
    (h : Heap) (hparse : PyArg_ParseTupleAndKeywords args kwargs 0 0 = Option.none) :
    asan_test args kwargs env h =
      { result := .NULL, heap := h, trace := [], heap_array := Option.none } := by
  unfold asan_test
  simp only [hparse]

theorem asan_test_stack (args : List PyObj) (kwargs : List (String × PyObj)) (env : Env)
    (h : Heap) (index : Int)
    (hparse : PyArg_ParseTupleAndKeywords args kwargs 0 0 = some (index, 0)) :
    asan_test args kwargs env h =
      { result :=
          if 0 ≤ index ∧ index ≤ 99 then
            (if index = 1 ∨ env.stack_raw index.toNat = 1 then .Py_True else .Py_False)
          else .fault,
        heap := h,
        trace := [.store .stack_array 1 1, .load .stack_array index],
        heap_array := Option.none } := by
  unfold asan_test
  simp only [hparse, storeInt_one, loadInt_written]
  by_cases hr : 0 ≤ index ∧ index ≤ 99
  · by_cases h1 : index = 1
    · simp [hr, h1]
    · by_cases h2 : env.stack_raw index.toNat = 1 <;> simp [hr, h1, h2]
  · simp [hr]

theorem asan_test_heap (args : List PyObj) (kwargs : List (String × PyObj)) (env : Env)
    (h : Heap) (index leak : Int) (g : Nat → Int)
    (hparse : PyArg_ParseTupleAndKeywords args kwargs 0 0 = some (index, leak))
    (hleak : leak ≠ 0) (hg : env.malloc_raw = some g) :
    asan_test args kwargs env h =
      { result :=
          if 0 ≤ index ∧ index ≤ 99 then
            (if index = 1 ∨ g index.toNat = 1 then .Py_True else .Py_False)
          else .fault,
        heap := h ++ [leakedBlock g],
        trace := [.malloc 400 (some h.length), .store (.heap h.length) 1 1,
                  .load (.heap h.length) index],
        heap_array := if 0 ≤ index ∧ index ≤ 99 then Option.none else some h.length } := by
  unfold asan_test
  have hs : Heap.store (h ++ [{ cells := rawInts 100 g, released := false }]) h.length 1 1
      = some (h ++ [leakedBlock g]) :=
    heap_store_fresh h _ rfl _ 1 1 (storeInt_one g)
  have hl : Heap.load (h ++ [leakedBlock g]) h.length index
      = loadInt ((rawInts 100 g).set 1 1) index :=
    heap_load_fresh h _ rfl index
  simp only [hparse]
  rw [if_pos hleak]
  simp only [hg, malloc, sizeof_int]
  simp only [show (100 * 4 / 4 : Nat) = 100 from rfl, hs, hl, loadInt_written]
  by_cases hr : 0 ≤ index ∧ index ≤ 99
  · by_cases h1 : index = 1
    · simp [hr, h1]
    · by_cases h2 : g index.toNat = 1 <;> simp [hr, h1, h2]
  · simp [hr]

theorem asan_test_malloc_fails (args : List PyObj) (kwargs : List (String × PyObj)) (env : Env)
    (h : Heap) (index leak : Int)
    (hparse : PyArg_ParseTupleAndKeywords args kwargs 0 0 = some (index, leak))
    (hleak : leak ≠ 0) (hg : env.malloc_raw = Option.none) :
    asan_test args kwargs env h =
      { result := .fault, heap := h,
        trace := [.malloc 400 Option.none, .store .null 1 1],
        heap_array := Option.none } := by
  unfold asan_test
  simp only [hparse]
  rw [if_pos hleak]
  simp only [hg, malloc, sizeof_int]

/-- An object that is not an `int` but converts through `__index__` is accepted
as `index`: the call parses and performs the store and the load. -/
theorem asan_test_index_object (v : Int) (t : Option Bool) (env : Env) (h : Heap)
    (hv : INT_MIN ≤ v ∧ v ≤ INT_MAX) :
    PyArg_ParseTupleAndKeywords [PyObj.other (some v) t] [] 0 0 = some (v, 0)
    ∧ (asan_test [PyObj.other (some v) t] [] env h).trace
        = [Event.store Region.stack_array 1 1, Event.load Region.stack_array v] := by
  have hp : PyArg_ParseTupleAndKeywords [PyObj.other (some v) t] [] 0 0 = some (v, 0) := by
    rw [parse_pos, convert_i_other, if_pos hv]
    rfl
  exact ⟨hp, by rw [asan_test_stack _ _ env h v hp]⟩

/-- What a run does once the arguments are parsed and any allocation succeeded. -/
theorem asan_test_parsed_run (args : List PyObj) (kwargs : List (String × PyObj))
    (env : Env) (h : Heap) (index leak : Int)
    (hparse : PyArg_ParseTupleAndKeywords args kwargs 0 0 = some (index, leak))
    (halloc : leak ≠ 0 → env.malloc_raw.isSome = true) :
    (asan_test args kwargs env h).trace.getLast?
        = some (Event.load (if leak ≠ 0 then Region.heap h.length else Region.stack_array) index)
    ∧ ((asan_test args kwargs env h).result ≠ PyResult.fault ↔ 0 ≤ index ∧ index ≤ 99)
    ∧ ((asan_test args kwargs env h).result = PyResult.fault ↔ index < 0 ∨ 100 ≤ index)
    ∧ (asan_test args kwargs env h).result ≠ PyResult.NULL
    ∧ ((loadInt (env.selected leak) index).isSome = true ↔ 0 ≤ index ∧ index ≤ 99) := by
  by_cases hl : leak = 0
  · subst hl
    rw [asan_test_stack args kwargs env h index hparse]
    have hsel : env.selected 0 = rawInts 100 env.stack_raw := by simp [Env.selected]
    rw [hsel, loadInt_isSome_iff _ (rawInts_length _ _)]
    by_cases hr : 0 ≤ index ∧ index ≤ 99
    · have hlt : ¬ index < 0 := by omega
      have hge : ¬ 100 ≤ index := by omega
      by_cases hc : index = 1 ∨ env.stack_raw index.toNat = 1 <;> simp [hr, hlt, hge, hc]
    · have hr2 : index < 0 ∨ 100 ≤ index := by omega
      simp [hr, hr2]
  · obtain ⟨g, hg⟩ := Option.isSome_iff_exists.mp (halloc hl)
    rw [asan_test_heap args kwargs env h index leak g hparse hl hg]
    have hsel : env.selected leak = rawInts 100 g := by simp [Env.selected, hl, hg]
    rw [hsel, loadInt_isSome_iff _ (rawInts_length _ _)]
    by_cases hr : 0 ≤ index ∧ index ≤ 99
    · have hlt : ¬ index < 0 := by omega
      have hge : ¬ 100 ≤ index := by omega
      by_cases hc : index = 1 ∨ g index.toNat = 1 <;> simp [hr, hlt, hge, hc, hl]
    · have hr2 : index < 0 ∨ 100 ≤ index := by omega
      simp [hr, hr2, hl]

/-! ## Sequences of leaking calls -/

theorem leakedBlock_length (g : Nat → Int) : (leakedBlock g).cells.length = 100 := by
  simp [leakedBlock, rawInts_length]

theorem finalHeap_cons (h : Heap) (r : Run) (rs : List Run) :
    finalHeap h (r :: rs) = finalHeap r.heap rs := by
  cases rs with
  | nil => simp [finalHeap]
  | cons r2 rs2 =>
    simp only [finalHeap, List.getLast?_cons_cons]
    cases hl : (r2 :: rs2).getLast? with
    | none => simp at hl
    | some r3 => rfl

theorem asan_test_leaks (c : Call) (h : Heap) (hc : c.leaks = true) :
    ∃ (index : Int) (g : Nat → Int),
      asan_test c.args c.kwargs c.env h =
        { result := if index = 1 ∨ g index.toNat = 1 then .Py_True else .Py_False,
          heap := h ++ [leakedBlock g],
          trace := [.malloc 400 (some h.length), .store (.heap h.length) 1 1,
                    .load (.heap h.length) index],
          heap_array := Option.none } := by
  unfold Call.leaks at hc
  cases hp : PyArg_ParseTupleAndKeywords c.args c.kwargs 0 0 with
  | none => simp [hp] at hc
  | some il =>
    obtain ⟨index, leak⟩ := il
    simp only [hp, Bool.and_eq_true, decide_eq_true_eq] at hc
    obtain ⟨⟨⟨hl, h0⟩, h99⟩, hsome⟩ := hc
    obtain ⟨g, hg⟩ := Option.isSome_iff_exists.mp hsome
    refine ⟨index, g, ?_⟩
    rw [asan_test_heap c.args c.kwargs c.env h index leak g hp hl hg]
    simp [h0, h99]

theorem runCalls_leaks (cs : List Call) : ∀ (h : Heap), (∀ c ∈ cs, c.leaks = true) →
    ∃ news : List Block,
      finalHeap h (runCalls cs h) = h ++ news
      ∧ news.length = cs.length
      ∧ (∀ b ∈ news, b.released = false ∧ b.cells.length = 100)
      ∧ (runCalls cs h).length = cs.length
      ∧ (∀ r ∈ runCalls cs h,
          (r.result = PyResult.Py_True ∨ r.result = PyResult.Py_False)
          ∧ r.heap_array = Option.none
          ∧ r.trace.all (fun e => !e.isFree) = true)
      ∧ allocated (allEvents (runCalls cs h)) = List.range' h.length cs.length := by
  induction cs with
  | nil =>
    intro h _
    exact ⟨[], by simp [runCalls, finalHeap], rfl, by simp, by simp [runCalls],
      by simp [runCalls], by simp [runCalls, allEvents, allocated]⟩
  | cons c cs ih =>
    intro h hcs
    obtain ⟨index, g, hrun⟩ := asan_test_leaks c h (hcs c (List.mem_cons_self _ _))
    obtain ⟨news, hfin, hlen, hnews, hrl, hrs, halloc⟩ :=
      ih (h ++ [leakedBlock g]) (fun c2 hc2 => hcs c2 (List.mem_cons_of_mem _ hc2))
    have hres : (if index = 1 ∨ g index.toNat = 1 then PyResult.Py_True else PyResult.Py_False)
        ≠ PyResult.fault := by
      split <;> simp
    have hstep : runCalls (c :: cs) h
        = { result := if index = 1 ∨ g index.toNat = 1 then .Py_True else .Py_False,
            heap := h ++ [leakedBlock g],
            trace := [.malloc 400 (some h.length), .store (.heap h.length) 1 1,
                      .load (.heap h.length) index],
            heap_array := Option.none } :: runCalls cs (h ++ [leakedBlock g]) := by
      simp only [runCalls, hrun, if_neg hres]
    rw [hstep]
    refine ⟨leakedBlock g :: news, ?_, ?_, ?_, ?_, ?_, ?_⟩
    · rw [finalHeap_cons, hfin]
      simp
    · simp [hlen]
    · intro b hb
      rcases List.mem_cons.mp hb with rfl | hb
      · exact ⟨rfl, leakedBlock_length g⟩
      · exact hnews b hb
    · simp [hrl]
    · intro r hr
      rcases List.mem_cons.mp hr with rfl | hr
      · refine ⟨?_, rfl, ?_⟩
        · by_cases hc : index = 1 ∨ g index.toNat = 1 <;> simp [hc]
        · simp [Event.isFree]
      · exact hrs r hr
    · have : allEvents
          ({ result := if index = 1 ∨ g index.toNat = 1 then .Py_True else .Py_False,
             heap := h ++ [leakedBlock g],
             trace := [.malloc 400 (some h.length), .store (.heap h.length) 1 1,
                       .load (.heap h.length) index],
             heap_array := Option.none } :: runCalls cs (h ++ [leakedBlock g]))
          = Event.malloc 400 (some h.length) :: Event.store (.heap h.length) 1 1
              :: Event.load (.heap h.length) index
              :: allEvents (runCalls cs (h ++ [leakedBlock g])) := by
        simp [allEvents]
      rw [this]
      simp only [allocated, halloc]
      simp [List.range'_succ]

theorem unreclaimed_append (h news : List Block) (hn : ∀ b ∈ news, b.released = false) :
    (Heap.unreclaimed (h ++ news)).length = (Heap.unreclaimed h).length + news.length := by
  unfold Heap.unreclaimed
  rw [List.enum_append, List.filter_append, List.length_append]
  congr 1
  rw [List.filter_eq_self.mpr]
  · simp
  · intro pb hpb
    have hmem : pb.2 ∈ news := by
      obtain ⟨i, b⟩ := pb
      have hm := List.mem_enumFrom hpb
      rw [hm.2.2]
      exact List.getElem_mem _
    simp [hn pb.2 hmem]

/-! ## Properties -/

/-- C1: when the arguments parse to `index = 1`, the call returns `True` in stack
mode and, provided the allocation succeeds, in leak mode, whatever the heap and
the prior contents of the buffer. -/
theorem asan_test_index_one_returns_true (args : List PyObj) (kwargs : List (String × PyObj))
    (env : Env) (h : Heap) (leak : Int)
    (hparse : PyArg_ParseTupleAndKeywords args kwargs 0 0 = some (1, leak))
    (halloc : leak ≠ 0 → env.malloc_raw.isSome = true) :
    (asan_test args kwargs env h).result = PyResult.Py_True := by
  by_cases hl : leak = 0
  · subst hl
    rw [asan_test_stack args kwargs env h 1 hparse]
    simp
  · obtain ⟨g, hg⟩ := Option.isSome_iff_exists.mp (halloc hl)
    rw [asan_test_heap args kwargs env h 1 leak g hparse hl hg]
    simp

/-- C1, instance: `test(1)` on an array of ones and `test(1, leak=True)` with a successful allocation both return `True`. -/
theorem asan_test_index_one_returns_true_witness :
    (PyArg_ParseTupleAndKeywords [PyObj.int 1] [] 0 0 = some (1, 0)
      ∧ (asan_test [PyObj.int 1] [] onesEnv []).result = PyResult.Py_True)
    ∧ (PyArg_ParseTupleAndKeywords [PyObj.int 1] [("leak", PyObj.bool true)] 0 0 = some (1, 1)
      ∧ zeroEnv.malloc_raw.isSome = true
      ∧ (asan_test [PyObj.int 1] [("leak", PyObj.bool true)] zeroEnv []).result
          = PyResult.Py_True) :=
  ⟨⟨by decide, asan_test_index_one_returns_true [PyObj.int 1] [] onesEnv [] 0 (by decide)
      (fun hne => absurd rfl hne)⟩,
   ⟨by decide, rfl, asan_test_index_one_returns_true [PyObj.int 1] [("leak", PyObj.bool true)]
      zeroEnv [] 1 (by decide) (fun _ => rfl)⟩⟩

/-- C2: after `n` calls that each take the leak path and complete (leak flag
set, index in `[0, 99]`, allocation succeeds), starting on any heap: all `n`
calls return a boolean; the number of allocated-and-not-released blocks has
grown by exactly `n` and the blocks that existed before are unchanged; the `n`
allocations returned `n` pairwise distinct addresses, none of them an address of
an older block; each of these blocks is on the final heap as an unreleased
block of 100 ints; no run released anything, and no run ends holding a pointer. -/
theorem leak_calls_accumulate (cs : List Call) (h : Heap) (hcs : ∀ c ∈ cs, c.leaks = true) :
    (runCalls cs h).length = cs.length
    ∧ (Heap.unreclaimed (finalHeap h (runCalls cs h))).length
        = (Heap.unreclaimed h).length + cs.length
    ∧ (finalHeap h (runCalls cs h)).take h.length = h
    ∧ (allocated (allEvents (runCalls cs h))).length = cs.length
    ∧ (allocated (allEvents (runCalls cs h))).Nodup
    ∧ (∀ p ∈ allocated (allEvents (runCalls cs h)),
        h.length ≤ p
        ∧ ∃ b, (finalHeap h (runCalls cs h))[p]? = some b
            ∧ b.released = false ∧ b.cells.length = 100)
    ∧ (∀ r ∈ runCalls cs h,
        (r.result = PyResult.Py_True ∨ r.result = PyResult.Py_False)
        ∧ r.heap_array = Option.none
        ∧ r.trace.all (fun e => !e.isFree) = true) := by
  obtain ⟨news, hfin, hlen, hnews, hrl, hrs, halloc⟩ := runCalls_leaks cs h hcs
  refine ⟨hrl, ?_, ?_, ?_, ?_, ?_, hrs⟩
  · rw [hfin, unreclaimed_append h news (fun b hb => (hnews b hb).1), hlen]
  · rw [hfin]
    simp
  · rw [halloc]
    simp
  · rw [halloc]
    exact List.nodup_range' _ _
  · intro p hp
    rw [halloc, List.mem_range'_1] at hp
    refine ⟨hp.1, ?_⟩
    have hi : p - h.length < news.length := by omega
    refine ⟨news[p - h.length], ?_, hnews _ (List.getElem_mem _)⟩
    rw [hfin, List.getElem?_append_right hp.1]
    exact List.getElem?_eq_getElem hi

/-- C2, instance: two calls `test(1, leak=True)` on the empty heap leave two unreclaimed blocks at distinct addresses. -/
theorem leak_calls_accumulate_witness :
    (∀ c ∈ twoLeakCalls, c.leaks = true)
    ∧ (Heap.unreclaimed (finalHeap [] (runCalls twoLeakCalls []))).length = 0 + 2
    ∧ (allocated (allEvents (runCalls twoLeakCalls []))).Nodup :=
  have hcs : ∀ c ∈ twoLeakCalls, c.leaks = true := by
    intro c hc
    simp only [twoLeakCalls, List.mem_cons, List.mem_singleton, List.not_mem_nil, or_false,
      or_self] at hc
    subst hc
    decide
  ⟨hcs, (leak_calls_accumulate twoLeakCalls [] hcs).2.1,
    (leak_calls_accumulate twoLeakCalls [] hcs).2.2.2.2.1⟩

/-- C3 fails as stated: with the in-range `index = 5` and `leak = True`, when
`malloc` returns `NULL` the call does not complete without a fault: the store
through the unchecked null pointer faults, and the indexed read is never
performed. -/
theorem asan_test_in_range_faults_when_malloc_fails :
    PyArg_ParseTupleAndKeywords [PyObj.int 5] [("leak", PyObj.bool true)] 0 0 = some (5, 1)
    ∧ ((0 : Int) ≤ 5 ∧ (5 : Int) ≤ 99)
    ∧ noMemEnv.malloc_raw = Option.none
    ∧ asan_test [PyObj.int 5] [("leak", PyObj.bool true)] noMemEnv []
        = { result := PyResult.fault, heap := [],
            trace := [Event.malloc 400 Option.none, Event.store Region.null 1 1],
            heap_array := Option.none } := by
  refine ⟨by decide, by decide, rfl, by decide⟩

/-- C3, amended: once the arguments are parsed and the buffer exists (always in
stack mode; in leak mode provided the allocation has succeeded, which the
function does not check) the call always performs the load at `index` on the
selected buffer,
never returns the error result, and faults exactly when `index` is outside
`[0, 99]`; the load from the selected 100-int buffer is in bounds exactly for
`0 ≤ index ≤ 99`. -/
theorem asan_test_read_in_bounds_iff (args : List PyObj) (kwargs : List (String × PyObj))
    (env : Env) (h : Heap) (index leak : Int)
    (hparse : PyArg_ParseTupleAndKeywords args kwargs 0 0 = some (index, leak))
    (halloc : leak ≠ 0 → env.malloc_raw.isSome = true) :
    (asan_test args kwargs env h).trace.getLast?
        = some (Event.load (if leak ≠ 0 then Region.heap h.length else Region.stack_array) index)
    ∧ ((asan_test args kwargs env h).result ≠ PyResult.fault ↔ 0 ≤ index ∧ index ≤ 99)
    ∧ ((asan_test args kwargs env h).result = PyResult.fault ↔ index < 0 ∨ 100 ≤ index)
    ∧ (asan_test args kwargs env h).result ≠ PyResult.NULL
    ∧ ((loadInt (env.selected leak) index).isSome = true ↔ 0 ≤ index ∧ index ≤ 99) :=
  asan_test_parsed_run args kwargs env h index leak hparse halloc

/-- C3, instance of the amended statement: `test(100)` parses, performs the load at offset 100 of the automatic array, and faults. -/
theorem asan_test_read_in_bounds_iff_witness :
    PyArg_ParseTupleAndKeywords [PyObj.int 100] [] 0 0 = some (100, 0)
    ∧ (asan_test [PyObj.int 100] [] zeroEnv []).trace.getLast?
        = some (Event.load Region.stack_array 100)
    ∧ (asan_test [PyObj.int 100] [] zeroEnv []).result = PyResult.fault :=
  have key := asan_test_read_in_bounds_iff [PyObj.int 100] [] zeroEnv [] 100 0 (by decide)
    (fun hne => absurd rfl hne)
  ⟨by decide, key.1, key.2.2.1.mpr (Or.inr (by decide))⟩

/-- C4: a call whose `index` argument is missing, or is not an integer (neither
an `int` or `bool` nor an object that converts through `__index__`), fails to
parse, and every call that fails to parse, for whatever reason, returns the
error result with the heap unchanged, no memory event (no store, no load, no
allocation) and no pointer held. -/
theorem asan_test_parse_failure_touches_nothing (args : List PyObj)
    (kwargs : List (String × PyObj)) (env : Env) (h : Heap) :
    ((current_arg args kwargs 0 = Option.none
        ∨ ∃ a, current_arg args kwargs 0 = some a ∧ a.isInteger = false)
      → PyArg_ParseTupleAndKeywords args kwargs 0 0 = Option.none)
    ∧ (PyArg_ParseTupleAndKeywords args kwargs 0 0 = Option.none
      → asan_test args kwargs env h
          = { result := PyResult.NULL, heap := h, trace := [], heap_array := Option.none }) := by
  refine ⟨?_, asan_test_null args kwargs env h⟩
  rintro (hmiss | ⟨a, ha, hint⟩)
  · exact parse_index_missing args kwargs 0 0 hmiss
  · exact parse_index_not_integer args kwargs 0 0 a ha hint

/-- C4, instance: `test(leak=True)` (no index), `test("1")` and `test(1.0)`
return the error result on an untouched heap with no memory event. -/
theorem asan_test_parse_failure_touches_nothing_witness :
    (current_arg [] [("leak", PyObj.bool true)] 0 = Option.none
      ∧ asan_test [] [("leak", PyObj.bool true)] zeroEnv []
          = { result := PyResult.NULL, heap := [], trace := [], heap_array := Option.none })
    ∧ (current_arg [PyObj.str "1"] [] 0 = some (PyObj.str "1")
      ∧ (PyObj.str "1").isInteger = false
      ∧ asan_test [PyObj.str "1"] [] zeroEnv []
          = { result := PyResult.NULL, heap := [], trace := [], heap_array := Option.none })
    ∧ ((PyObj.other Option.none (some true)).isInteger = false
      ∧ asan_test [PyObj.other Option.none (some true)] [] zeroEnv []
          = { result := PyResult.NULL, heap := [], trace := [], heap_array := Option.none }) :=
  ⟨⟨by decide,
    (asan_test_parse_failure_touches_nothing [] [("leak", PyObj.bool true)] zeroEnv []).2
      ((asan_test_parse_failure_touches_nothing [] [("leak", PyObj.bool true)] zeroEnv []).1
        (Or.inl (by decide)))⟩,
   ⟨by decide, rfl,
    (asan_test_parse_failure_touches_nothing [PyObj.str "1"] [] zeroEnv []).2
      ((asan_test_parse_failure_touches_nothing [PyObj.str "1"] [] zeroEnv []).1
        (Or.inr ⟨PyObj.str "1", by decide, rfl⟩))⟩,
   ⟨rfl,
    (asan_test_parse_failure_touches_nothing [PyObj.other Option.none (some true)] []
        zeroEnv []).2
      ((asan_test_parse_failure_touches_nothing [PyObj.other Option.none (some true)] []
          zeroEnv []).1
        (Or.inr ⟨PyObj.other Option.none (some true), by decide, rfl⟩))⟩⟩

/-- C5 fails as stated: with `index = 0`, `leak = false` and an automatic array
whose cell 0 happens to hold 1, the call returns `True`, not `False`. -/
theorem asan_test_stack_garbage_one_returns_true :
    PyArg_ParseTupleAndKeywords [PyObj.int 0] [("leak", PyObj.bool false)] 0 0 = some (0, 0)
    ∧ (asan_test [PyObj.int 0] [("leak", PyObj.bool false)] onesEnv []).result
        = PyResult.Py_True
    ∧ (asan_test [PyObj.int 0] [("leak", PyObj.bool false)] onesEnv []).result
        ≠ PyResult.Py_False := by
  refine ⟨by decide, by decide, by decide⟩

/-- C5, amended: for `index` in `[0, 99]`, `index ≠ 1` and `leak = false`, the
call returns `False` exactly when the cell of the automatic array at `index` did
not hold 1 before the call, and `True` otherwise. -/
theorem asan_test_stack_false_iff (args : List PyObj) (kwargs : List (String × PyObj))
    (env : Env) (h : Heap) (index : Int)
    (hparse : PyArg_ParseTupleAndKeywords args kwargs 0 0 = some (index, 0))
    (h0 : 0 ≤ index) (h99 : index ≤ 99) (hne : index ≠ 1) :
    ((asan_test args kwargs env h).result = PyResult.Py_False
      ↔ (rawInts 100 env.stack_raw)[index.toNat]? ≠ some 1)
    ∧ ((asan_test args kwargs env h).result = PyResult.Py_True
      ↔ (rawInts 100 env.stack_raw)[index.toNat]? = some 1) := by
  rw [asan_test_stack args kwargs env h index hparse, rawInts_getElem? _ index h0 h99]
  by_cases hc : env.stack_raw index.toNat = 1 <;> simp [h0, h99, hne, hc]

/-- C5, instance of the amended statement: `test(0)` on a zero-filled automatic array returns `False`. -/
theorem asan_test_stack_false_iff_witness :
    PyArg_ParseTupleAndKeywords [PyObj.int 0] [] 0 0 = some (0, 0)
    ∧ (0 : Int) ≤ 0 ∧ (0 : Int) ≤ 99 ∧ (0 : Int) ≠ 1
    ∧ (rawInts 100 zeroEnv.stack_raw)[(0 : Int).toNat]? ≠ some 1
    ∧ (asan_test [PyObj.int 0] [] zeroEnv []).result = PyResult.Py_False :=
  ⟨by decide, by decide, by decide, by decide, by decide,
   (asan_test_stack_false_iff [PyObj.int 0] [] zeroEnv [] 0 (by decide) (by decide) (by decide)
      (by decide)).1.mpr (by decide)⟩

/-- C6 fails as stated: with the in-range `index = 0` the call returns `False`
when the cell holds 0, and the same arguments return `True` when it holds 1, so
the result is neither always `True` nor independent of the prior contents. -/
theorem asan_test_in_range_not_always_true :
    ((0 : Int) ≤ 0 ∧ (0 : Int) ≤ 99)
    ∧ PyArg_ParseTupleAndKeywords [PyObj.int 0] [] 0 0 = some (0, 0)
    ∧ (asan_test [PyObj.int 0] [] zeroEnv []).result = PyResult.Py_False
    ∧ (asan_test [PyObj.int 0] [] onesEnv []).result = PyResult.Py_True
    ∧ (asan_test [PyObj.int 0] [("leak", PyObj.bool true)] zeroEnv []).result
        = PyResult.Py_False
    ∧ (asan_test [PyObj.int 0] [("leak", PyObj.bool true)] onesEnv []).result
        = PyResult.Py_True := by
  refine ⟨by decide, by decide, by decide, by decide, by decide, by decide⟩

/-- C6, amended: with in-range input (and, in leak mode, successful
allocations) the call returns a boolean that depends only on the arguments and
on the prior content of the selected buffer at `index`: two calls with the same
arguments whose buffers hold the same value there return the same boolean, on
any heaps; the boolean is `True` when `index = 1`. -/
theorem asan_test_in_range_deterministic (args : List PyObj) (kwargs : List (String × PyObj))
    (env env2 : Env) (h h2 : Heap) (index leak : Int)
    (hparse : PyArg_ParseTupleAndKeywords args kwargs 0 0 = some (index, leak))
    (h0 : 0 ≤ index) (h99 : index ≤ 99)
    (halloc : leak ≠ 0 → env.malloc_raw.isSome = true ∧ env2.malloc_raw.isSome = true)
    (hsame : (env.selected leak)[index.toNat]? = (env2.selected leak)[index.toNat]?) :
    (asan_test args kwargs env h).result = (asan_test args kwargs env2 h2).result
    ∧ ((asan_test args kwargs env h).result = PyResult.Py_True
        ∨ (asan_test args kwargs env h).result = PyResult.Py_False)
    ∧ (index = 1 → (asan_test args kwargs env h).result = PyResult.Py_True) := by
  by_cases hl : leak = 0
  · subst hl
    have hsel : ∀ e : Env, e.selected 0 = rawInts 100 e.stack_raw := by
      intro e; simp [Env.selected]
    rw [hsel, hsel, rawInts_getElem? _ index h0 h99, rawInts_getElem? _ index h0 h99] at hsame
    have hs : env.stack_raw index.toNat = env2.stack_raw index.toNat := Option.some.inj hsame
    rw [asan_test_stack args kwargs env h index hparse,
      asan_test_stack args kwargs env2 h2 index hparse, hs]
    by_cases hc : index = 1 ∨ env2.stack_raw index.toNat = 1
    · simp [h0, h99, hc]
    · have h1 : index ≠ 1 := fun h => hc (Or.inl h)
      have h2 : ¬ env2.stack_raw index.toNat = 1 := fun h => hc (Or.inr h)
      simp [h0, h99, h1, h2]
  · obtain ⟨hg, hg2⟩ := halloc hl
    obtain ⟨g, hg⟩ := Option.isSome_iff_exists.mp hg
    obtain ⟨g2, hg2⟩ := Option.isSome_iff_exists.mp hg2
    have hsel : env.selected leak = rawInts 100 g := by simp [Env.selected, hl, hg]
    have hsel2 : env2.selected leak = rawInts 100 g2 := by simp [Env.selected, hl, hg2]
    rw [hsel, hsel2, rawInts_getElem? _ index h0 h99, rawInts_getElem? _ index h0 h99] at hsame
    have hs : g index.toNat = g2 index.toNat := Option.some.inj hsame
    rw [asan_test_heap args kwargs env h index leak g hparse hl hg,
      asan_test_heap args kwargs env2 h2 index leak g2 hparse hl hg2, hs]
    by_cases hc : index = 1 ∨ g2 index.toNat = 1
    · simp [h0, h99, hc]
    · have h1 : index ≠ 1 := fun h => hc (Or.inl h)
      have h2 : ¬ g2 index.toNat = 1 := fun h => hc (Or.inr h)
      simp [h0, h99, h1, h2]

/-- C6, instance of the amended statement: `test(0, leak=True)` returns the same boolean on two different heaps when fresh memory is zero-filled. -/
theorem asan_test_in_range_deterministic_witness :
    PyArg_ParseTupleAndKeywords [PyObj.int 0] [("leak", PyObj.bool true)] 0 0 = some (0, 1)
    ∧ (zeroEnv.malloc_raw.isSome = true ∧ zeroEnv.malloc_raw.isSome = true)
    ∧ ((asan_test [PyObj.int 0] [("leak", PyObj.bool true)] zeroEnv []).result
        = (asan_test [PyObj.int 0] [("leak", PyObj.bool true)] zeroEnv
            [leakedBlock (fun _ => 7)]).result) :=
  ⟨by decide, ⟨rfl, rfl⟩,
   (asan_test_in_range_deterministic [PyObj.int 0] [("leak", PyObj.bool true)] zeroEnv zeroEnv
      [] [leakedBlock (fun _ => 7)] 0 1 (by decide) (by decide) (by decide)
      (fun _ => ⟨rfl, rfl⟩) rfl).1⟩

/-- C7: for every object passed as `index`, a call that omits `leak` is the same
run as the call that passes `leak=False` (by keyword or by position), whether
`index` is positional or named: same result, heap, events and pointer.  The
omitted flag keeps its initial value 0, and the run allocates nothing and leaves
the heap as it was. -/
theorem asan_test_leak_omitted (x : PyObj) (env : Env) (h : Heap) :
    asan_test [x] [] env h = asan_test [x] [("leak", PyObj.bool false)] env h
    ∧ asan_test [x] [] env h = asan_test [x, PyObj.bool false] [] env h
    ∧ asan_test [] [("index", x)] env h
        = asan_test [] [("index", x), ("leak", PyObj.bool false)] env h
    ∧ PyArg_ParseTupleAndKeywords [x] [] 0 0 = (convert_i x).map (fun i => (i, 0))
    ∧ PyArg_ParseTupleAndKeywords [] [("index", x)] 0 0 = (convert_i x).map (fun i => (i, 0))
    ∧ (asan_test [x] [] env h).heap = h
    ∧ (asan_test [x] [] env h).trace.all (fun e => !e.isMalloc) = true
    ∧ (asan_test [] [("index", x)] env h).heap = h
    ∧ (asan_test [] [("index", x)] env h).trace.all (fun e => !e.isMalloc) = true := by
  have e1 : PyArg_ParseTupleAndKeywords [x] [("leak", PyObj.bool false)] 0 0
      = PyArg_ParseTupleAndKeywords [x] [] 0 0 := by
    rw [parse_pos_kwleak, parse_pos, convert_p_bool]
    cases convert_i x <;> simp
  have e2 : PyArg_ParseTupleAndKeywords [x, PyObj.bool false] [] 0 0
      = PyArg_ParseTupleAndKeywords [x] [] 0 0 := by
    rw [parse_pos_pos, parse_pos, convert_p_bool]
    cases convert_i x <;> simp
  have e3 : PyArg_ParseTupleAndKeywords [] [("index", x), ("leak", PyObj.bool false)] 0 0
      = PyArg_ParseTupleAndKeywords [] [("index", x)] 0 0 := by
    rw [parse_kw_kwleak, parse_kw, convert_p_bool]
    cases convert_i x <;> simp
  have run : ∀ (args : List PyObj) (kwargs : List (String × PyObj)),
      PyArg_ParseTupleAndKeywords args kwargs 0 0 = (convert_i x).map (fun i => (i, 0)) →
      (asan_test args kwargs env h).heap = h
      ∧ (asan_test args kwargs env h).trace.all (fun e => !e.isMalloc) = true := by
    intro args kwargs hp
    cases hc : convert_i x with
    | none =>
      rw [hc] at hp
      rw [asan_test_null args kwargs env h hp]
      simp
    | some i =>
      rw [hc] at hp
      rw [asan_test_stack args kwargs env h i hp]
      simp [Event.isMalloc]
  refine ⟨?_, ?_, ?_, parse_pos x 0, parse_kw x 0, (run _ _ (parse_pos x 0)).1,
    (run _ _ (parse_pos x 0)).2, (run _ _ (parse_kw x 0)).1, (run _ _ (parse_kw x 0)).2⟩
  · unfold asan_test; rw [e1]
  · unfold asan_test; rw [e2]
  · unfold asan_test; rw [e3]

/-- C8 fails as stated: the integer `2147483648` does not fit a C `int`; the
parser rejects it and the call returns the error result without any memory
event, in either mode. -/
theorem asan_test_index_overflow_rejected :
    PyArg_ParseTupleAndKeywords [PyObj.int 2147483648] [] 0 0 = Option.none
    ∧ asan_test [PyObj.int 2147483648] [] zeroEnv []
        = { result := PyResult.NULL, heap := [], trace := [], heap_array := Option.none }
    ∧ asan_test [PyObj.int (-2147483649)] [("leak", PyObj.bool true)] zeroEnv []
        = { result := PyResult.NULL, heap := [], trace := [], heap_array := Option.none } := by
  refine ⟨by decide, by decide, by decide⟩

/-- C8, amended: every integer `index` that fits a C `int`, of either sign and
whatever its relation to the buffer bounds, is accepted by the parser, and the
call (in leak mode, provided the allocation succeeds) goes on to load the cell at
`index` instead of returning the error result; integers outside the C `int`
range are rejected with the error result before any memory event. -/
theorem asan_test_no_range_check_within_int (v : Int) (leak : Bool) (env : Env) (h : Heap) :
    (INT_MIN ≤ v ∧ v ≤ INT_MAX →
      PyArg_ParseTupleAndKeywords [PyObj.int v] [("leak", PyObj.bool leak)] 0 0
        = some (v, if leak then 1 else 0)
      ∧ PyArg_ParseTupleAndKeywords [PyObj.int v] [] 0 0 = some (v, 0)
      ∧ (asan_test [PyObj.int v] [] env h).result ≠ PyResult.NULL
      ∧ (asan_test [PyObj.int v] [] env h).trace.getLast?
          = some (Event.load Region.stack_array v)
      ∧ ((leak = true → env.malloc_raw.isSome = true) →
          (asan_test [PyObj.int v] [("leak", PyObj.bool leak)] env h).result ≠ PyResult.NULL
          ∧ (asan_test [PyObj.int v] [("leak", PyObj.bool leak)] env h).trace.getLast?
              = some (Event.load
                  (if leak then Region.heap h.length else Region.stack_array) v)))
    ∧ (¬ (INT_MIN ≤ v ∧ v ≤ INT_MAX) →
      asan_test [PyObj.int v] [("leak", PyObj.bool leak)] env h
        = { result := PyResult.NULL, heap := h, trace := [], heap_array := Option.none }
      ∧ asan_test [PyObj.int v] [] env h
        = { result := PyResult.NULL, heap := h, trace := [], heap_array := Option.none }) := by
  constructor
  · intro hr
    have p1 : PyArg_ParseTupleAndKeywords [PyObj.int v] [("leak", PyObj.bool leak)] 0 0
        = some (v, if leak then 1 else 0) := by
      rw [parse_pos_kwleak, convert_i_int, convert_p_bool, if_pos hr]
      rfl
    have p2 : PyArg_ParseTupleAndKeywords [PyObj.int v] [] 0 0 = some (v, 0) := by
      rw [parse_pos, convert_i_int, if_pos hr]
      rfl
    have k2 := asan_test_parsed_run [PyObj.int v] [] env h v 0 p2
      (fun hne => absurd rfl hne)
    refine ⟨p1, p2, k2.2.2.2.1, by simpa using k2.1, ?_⟩
    intro halloc
    have k1 := asan_test_parsed_run [PyObj.int v] [("leak", PyObj.bool leak)] env h v
      (if leak then 1 else 0) p1 (by cases leak <;> simp_all)
    refine ⟨k1.2.2.2.1, ?_⟩
    rw [k1.1]
    cases leak <;> simp
  · intro hr
    have p1 : PyArg_ParseTupleAndKeywords [PyObj.int v] [("leak", PyObj.bool leak)] 0 0
        = Option.none := by
      rw [parse_pos_kwleak, convert_i_int, if_neg hr]
      rfl
    have p2 : PyArg_ParseTupleAndKeywords [PyObj.int v] [] 0 0 = Option.none := by
      rw [parse_pos, convert_i_int, if_neg hr]
      rfl
    exact ⟨asan_test_null _ _ env h p1, asan_test_null _ _ env h p2⟩

/-- C8, instance of the amended statement: `test(-5, leak=True)` is accepted and goes on to load offset -5 of the fresh block. -/
theorem asan_test_no_range_check_within_int_witness :
    (INT_MIN ≤ (-5) ∧ (-5) ≤ INT_MAX)
    ∧ zeroEnv.malloc_raw.isSome = true
    ∧ (asan_test [PyObj.int (-5)] [("leak", PyObj.bool true)] zeroEnv []).result
        ≠ PyResult.NULL
    ∧ (asan_test [PyObj.int (-5)] [("leak", PyObj.bool true)] zeroEnv []).trace.getLast?
        = some (Event.load (Region.heap 0) (-5)) :=
  ⟨by decide, rfl,
   ((asan_test_no_range_check_within_int (-5) true zeroEnv []).1 (by decide)).2.2.2.2
      (fun _ => rfl)⟩

/-- C9: for `index` in `[0, 99]`, either mode, and every prior content `b` of
the selected 100-int buffer, the call returns `True` exactly when `index = 1` or
`b[index] = 1`; the result is the comparison with 1 of the value loaded at
`index` after 1 has been stored at offset 1. -/
theorem asan_test_result_iff (args : List PyObj) (kwargs : List (String × PyObj))
    (env : Env) (h : Heap) (index leak : Int) (b : List Int)
    (hparse : PyArg_ParseTupleAndKeywords args kwargs 0 0 = some (index, leak))
    (h0 : 0 ≤ index) (h99 : index ≤ 99)
    (hb : b = env.selected leak) (hlen : b.length = 100) :
    ((asan_test args kwargs env h).result = PyResult.Py_True
      ↔ index = 1 ∨ b[index.toNat]? = some 1)
    ∧ (asan_test args kwargs env h).result
        = (if loadInt (b.set 1 1) index = some 1 then PyResult.Py_True else PyResult.Py_False) := by
  by_cases hl : leak = 0
  · subst hl
    have hsel : env.selected 0 = rawInts 100 env.stack_raw := by simp [Env.selected]
    rw [hb, hsel, asan_test_stack args kwargs env h index hparse, loadInt_written,
      rawInts_getElem? _ index h0 h99]
    by_cases h1 : index = 1
    · simp [h0, h99, h1]
    · by_cases hc : env.stack_raw index.toNat = 1 <;> simp [h0, h99, h1, hc]
  · cases hg : env.malloc_raw with
    | none =>
      have hsel : env.selected leak = [] := by simp [Env.selected, hl, hg]
      rw [hb, hsel] at hlen
      simp at hlen
    | some g =>
      have hsel : env.selected leak = rawInts 100 g := by simp [Env.selected, hl, hg]
      rw [hb, hsel, asan_test_heap args kwargs env h index leak g hparse hl hg, loadInt_written,
        rawInts_getElem? _ index h0 h99]
      by_cases h1 : index = 1
      · simp [h0, h99, h1]
      · by_cases hc : g index.toNat = 1 <;> simp [h0, h99, h1, hc]

/-- C9, instance: `test(5, leak=True)` returns `True` when the fresh block holds 1 at offset 5. -/
theorem asan_test_result_iff_witness :
    PyArg_ParseTupleAndKeywords [PyObj.int 5] [("leak", PyObj.bool true)] 0 0 = some (5, 1)
    ∧ (onesEnv.selected 1).length = 100
    ∧ (onesEnv.selected 1)[(5 : Int).toNat]? = some 1
    ∧ (asan_test [PyObj.int 5] [("leak", PyObj.bool true)] onesEnv []).result
        = PyResult.Py_True :=
  ⟨by decide, by decide, by decide,
   (asan_test_result_iff [PyObj.int 5] [("leak", PyObj.bool true)] onesEnv [] 5 1
      (onesEnv.selected 1) (by decide) (by decide) (by decide) rfl (by decide)).1.mpr
      (Or.inr (by decide))⟩

/-- C10: a parsed call uses exactly one buffer.  With `leak = 0` its only memory
events are the store and the load on the automatic array; it calls no
allocator, and the heap, and so the set of unreclaimed blocks, is what it was
before the call, with no pointer held.  With `leak ≠ 0` no event touches the
automatic array, and when the allocation succeeds the store and the load are on
the freshly allocated block. -/
theorem asan_test_one_buffer (args : List PyObj) (kwargs : List (String × PyObj))
    (env : Env) (h : Heap) (index leak : Int)
    (hparse : PyArg_ParseTupleAndKeywords args kwargs 0 0 = some (index, leak)) :
    (leak = 0 →
      (asan_test args kwargs env h).trace
          = [Event.store Region.stack_array 1 1, Event.load Region.stack_array index]
      ∧ (asan_test args kwargs env h).trace.all (fun e => !e.isMalloc) = true
      ∧ allocated (asan_test args kwargs env h).trace = []
      ∧ (asan_test args kwargs env h).heap = h
      ∧ Heap.unreclaimed (asan_test args kwargs env h).heap = Heap.unreclaimed h
      ∧ (asan_test args kwargs env h).heap_array = Option.none)
    ∧ (leak ≠ 0 →
      (asan_test args kwargs env h).trace.all (fun e => !e.touchesStack) = true
      ∧ ∀ g, env.malloc_raw = some g →
          (asan_test args kwargs env h).trace
            = [Event.malloc 400 (some h.length), Event.store (Region.heap h.length) 1 1,
               Event.load (Region.heap h.length) index]) := by
  constructor
  · intro hl
    subst hl
    rw [asan_test_stack args kwargs env h index hparse]
    simp [Event.isMalloc, allocated]
  · intro hl
    cases hg : env.malloc_raw with
    | none =>
      rw [asan_test_malloc_fails args kwargs env h index leak hparse hl hg]
      simp [Event.touchesStack]
    | some g =>
      rw [asan_test_heap args kwargs env h index leak g hparse hl hg]
      simp [Event.touchesStack]

/-- C10, instance: `test(3)` on a heap holding one leaked block leaves that heap as it was and only touches the automatic array. -/
theorem asan_test_one_buffer_witness :
    PyArg_ParseTupleAndKeywords [PyObj.int 3] [] 0 0 = some (3, 0)
    ∧ (asan_test [PyObj.int 3] [] zeroEnv [leakedBlock (fun _ => 0)]).heap
        = [leakedBlock (fun _ => 0)]
    ∧ (asan_test [PyObj.int 3] [] zeroEnv [leakedBlock (fun _ => 0)]).trace
        = [Event.store Region.stack_array 1 1, Event.load Region.stack_array 3] :=
  have key := (asan_test_one_buffer [PyObj.int 3] [] zeroEnv [leakedBlock (fun _ => 0)] 3 0
    (by decide)).1 rfl
  ⟨by decide, key.2.2.2.1, key.1⟩

end Asan
